import Mathlib

/-!
Shallow embedding of the RAGnalysis API backend (src/app/backend.py).

The embedding models the request-orchestration pipeline of the class rag:
parameter extraction (rag.__init__), the generate pipeline
(embed, index search, context assembly, backend dispatch, cost accounting,
response envelope), and the three backend child functions.  External
collaborators (the embedding HTTP service, the FAISS index, the chunk
table, the tokenizer, environment variables) are passed in as explicit
inputs.  Wall-clock timing, the timestamp id field and the logging calls
are ambient I/O and are not part of any claim, so they are omitted from
the envelope.  Python runtime errors that the code can raise on the
modelled paths (TypeError, AttributeError, KeyError, ValueError,
NameError/UnboundLocalError, IndexError, and the bare
Exception for an invalid model choice) are represented explicitly.
-/

/-- A Python value as it can appear in request parameters, JSON dict
fields and the echoed self.__dict__. -/
inductive PyVal where
  | str (s : String)
  | pyBool (b : Bool)
  | num (q : ℚ)
  | pyNone
  deriving DecidableEq, Repr

/-- The Python exceptions the modelled code paths can raise.
nameError also stands for UnboundLocalError (its subclass);
invalidModelError models the bare Exception with message
Invalid model choice raised by rag._augment. -/
inductive PyError where
  | typeError (msg : String)
  | nameError (name : String)
  | attributeError (attr : String)
  | keyError (key : String)
  | valueError (msg : String)
  | indexError
  | invalidModelError
  deriving DecidableEq, Repr

/-- Python equality as used by the in-operator on the literal list
of rag.__init__ line 52: == equates True with 1 and compares values of
different types as unequal otherwise. -/
def pyEq : PyVal → PyVal → Bool
  | .str a, .str b => a == b
  | .pyBool a, .pyBool b => a == b
  | .num a, .num b => a == b
  | .pyBool a, .num b => (if a then (1 : ℚ) else 0) == b
  | .num a, .pyBool b => a == (if b then (1 : ℚ) else 0)
  | .pyNone, .pyNone => true
  | _, _ => false

/-- Python truthiness test, as used by the if-not-self-body and the
x-or-default patterns: None, empty string, False and 0 are falsy;
an absent parameter (dict.get returning None) is falsy too. -/
def isFalsy : Option PyVal → Bool
  | none => true
  | some (.str s) => s == ""
  | some (.pyBool b) => !b
  | some (.num q) => q == 0
  | some .pyNone => true

/-- The membership test of backend.py lines 52 and 55:
value in a list holding the string True, the boolean True and None.
An absent parameter (None) is therefore truthy. -/
def memTruthy (v : Option PyVal) : Bool :=
  match v with
  | none => true
  | some x => pyEq x (.str "True") || pyEq x (.pyBool true) || pyEq x .pyNone

/-- Reads a list of decimal digit characters as a natural number;
any non-digit character fails. -/
def digitsToNat (cs : List Char) : Option ℕ :=
  cs.foldl (fun acc c =>
    match acc with
    | none => none
    | some n => if c.isDigit then some (n * 10 + (c.toNat - 48)) else none)
    (some 0)

/-- The float builtin applied to a string: optional sign, decimal
digits with at most one dot, at least one digit. -/
def parseFloatLit (s : String) : Option ℚ :=
  let t := if s.startsWith "-" || s.startsWith "+" then s.drop 1 else s
  let sign : ℚ := if s.startsWith "-" then -1 else 1
  match t.splitOn "." with
  | [w] =>
    if w.isEmpty then none
    else (digitsToNat w.data).map (fun n => sign * (n : ℚ))
  | [w, f] =>
    if w.isEmpty && f.isEmpty then none
    else
      match digitsToNat w.data, digitsToNat f.data with
      | some a, some b => some (sign * ((a : ℚ) + (b : ℚ) / ((10 : ℚ) ^ f.length)))
      | _, _ => none
  | _ => none

/-- The int builtin applied to a string: optional sign and decimal
digits only. -/
def parseIntLit (s : String) : Option ℤ :=
  let t := if s.startsWith "-" || s.startsWith "+" then s.drop 1 else s
  if t.isEmpty then none
  else (digitsToNat t.data).map
    (fun n => if s.startsWith "-" then -(n : ℤ) else (n : ℤ))

/-- The float builtin on a Python value: strings are parsed (ValueError
on malformed input), booleans become 0 or 1, None is a TypeError. -/
def pyFloat : PyVal → Except PyError ℚ
  | .str s =>
    match parseFloatLit s with
    | some q => .ok q
    | none => .error (.valueError s)
  | .pyBool b => .ok (if b then 1 else 0)
  | .num q => .ok q
  | .pyNone => .error (.typeError "float argument must be a string or a number")

/-- The int builtin on a Python value; numbers truncate toward zero. -/
def pyInt : PyVal → Except PyError ℤ
  | .str s =>
    match parseIntLit s with
    | some n => .ok n
    | none => .error (.valueError s)
  | .pyBool b => .ok (if b then 1 else 0)
  | .num q => .ok (Int.tdiv q.num (q.den : ℤ))
  | .pyNone => .error (.typeError "int argument must be a string or a number")

/-- The float(x or d) pattern of backend.py lines 53-57: a falsy
parameter value (absent or empty) falls back to the default, anything
else is parsed strictly. -/
def floatOr (v : Option PyVal) (d : ℚ) : Except PyError ℚ :=
  if isFalsy v then .ok d
  else
    match v with
    | some x => pyFloat x
    | none => .ok d

/-- The int(x or d) pattern of backend.py lines 58-60. -/
def intOr (v : Option PyVal) (d : ℤ) : Except PyError ℤ :=
  if isFalsy v then .ok d
  else
    match v with
    | some x => pyInt x
    | none => .ok d

/-- The inbound HTTP request: query/form parameters, and the request
body as a parsed-JSON object when get_json succeeds on a JSON object
(none models both an unparseable body and an absent one; a JSON body
that parses to a non-object is not needed by any claim). -/
structure HttpRequest where
  params : List (String × PyVal)
  jsonBody : Option (List (String × PyVal))
  deriving DecidableEq, Repr

/-- The value of the local variable req of rag.__init__ after line 45:
the original request object, or the dict it was rebound to when the
JSON fallback of lines 43-49 ran. -/
inductive ReqObj where
  | httpReq (r : HttpRequest)
  | jsonDict (d : List (String × PyVal))
  deriving DecidableEq, Repr

/-- Attribute access req.params.get(key): on the original request it is
a dict lookup; on the rebound JSON dict there is no params attribute,
so Python raises AttributeError. -/
def paramsGet : ReqObj → String → Except PyError (Option PyVal)
  | .httpReq r, key => .ok (r.params.lookup key)
  | .jsonDict _, _ => .error (.attributeError "params")

/-- The resolved generation configuration: the instance attributes set
by rag.__init__ lines 41-60, in source order. -/
structure Config where
  body : Option PyVal
  model : String
  use_rag : Bool
  temperature : ℚ
  top_p : ℚ
  do_sample : Bool
  frequency_penalty : ℚ
  presence_penalty : ℚ
  max_new_tokens : ℤ
  chunk_limit : ℤ
  k : ℤ
  deriving DecidableEq, Repr

/-- rag.__init__ (backend.py lines 24-60): body lookup with JSON
fallback (rebinding req on success), then each parameter read through
req.params in source order. -/
def rag_init (req : HttpRequest) (model : String) : Except PyError Config := do
  let body0 := req.params.lookup "body"
  let ro :=
    if isFalsy body0 then
      match req.jsonBody with
      | none => (ReqObj.httpReq req, body0)
      | some d => (ReqObj.jsonDict d, d.lookup "body")
    else (ReqObj.httpReq req, body0)
  let reqObj := ro.1
  let body := ro.2
  let vUseRag ← paramsGet reqObj "use_rag"
  let use_rag := memTruthy vUseRag
  let vTemp ← paramsGet reqObj "temperature"
  let temperature ← floatOr vTemp (9 / 10)
  let vTopP ← paramsGet reqObj "top_p"
  let top_p ← floatOr vTopP (9 / 10)
  let vDoSample ← paramsGet reqObj "do_sample"
  let do_sample := memTruthy vDoSample
  let vFreq ← paramsGet reqObj "frequency_penalty"
  let frequency_penalty ← floatOr vFreq 0
  let vPres ← paramsGet reqObj "presence_penalty"
  let presence_penalty ← floatOr vPres 0
  let vMax ← paramsGet reqObj "max_new_tokens"
  let max_new_tokens ← intOr vMax 200
  let vChunk ← paramsGet reqObj "chunk_limit"
  let chunk_limit ← intOr vChunk 150
  let vK ← paramsGet reqObj "k"
  let k ← intOr vK 3
  pure {
    body := body, model := model, use_rag := use_rag,
    temperature := temperature, top_p := top_p, do_sample := do_sample,
    frequency_penalty := frequency_penalty, presence_penalty := presence_penalty,
    max_new_tokens := max_new_tokens, chunk_limit := chunk_limit, k := k }

/-- A parsed JSON value, for the payloads returned by the embedding
service and the three LLM backends. -/
inductive JVal where
  | jstr (s : String)
  | jnum (q : ℚ)
  | jbool (b : Bool)
  | jarr (xs : List JVal)
  | jobj (fields : List (String × JVal))
  | jnull

/-- Field lookup in a parsed JSON object. -/
def jLookup (fields : List (String × JVal)) (key : String) : Option JVal :=
  fields.lookup key

/-- Python subscript v[key]: KeyError when the key is absent from a
dict, TypeError when the value is not a dict. -/
def jGetKey (v : JVal) (key : String) : Except PyError JVal :=
  match v with
  | .jobj fs =>
    match jLookup fs key with
    | some x => .ok x
    | none => .error (.keyError key)
  | _ => .error (.typeError "value is not subscriptable by string")

/-- Python subscript v[i] on a list: IndexError when out of range. -/
def jGetIdx (v : JVal) (i : ℕ) : Except PyError JVal :=
  match v with
  | .jarr xs =>
    match xs.get? i with
    | some x => .ok x
    | none => .error .indexError
  | _ => .error (.typeError "value is not subscriptable by index")

/-- Python dict.get(key): returns None silently when the key is absent;
AttributeError when the receiver is not a dict. -/
def dictGet (v : JVal) (key : String) : Except PyError (Option JVal) :=
  match v with
  | .jobj fs => .ok (jLookup fs key)
  | _ => .error (.attributeError "get")

/-- The message of the TypeError Python raises when a caught KeyError
instance is called like a constructor by the raise-e pattern of
backend.py lines 145, 212, 237 and 257. -/
def typeErrorMsg : String := "KeyError object is not callable"

/-- The message of the TypeError Python raises at backend.py line 115
when the float embed_cost is added to the string cost sentinel. -/
def addTypeErrorMsg : String := "unsupported operand types for add: float and str"

/-- rag._embed (backend.py lines 129-147).  Inputs: whether the
OPENAI_KEY environment variable exists (looked up inside the try
block), and the JSON payload the embedding service answered with.
The try block extracts resp[data][0][embedding]; a KeyError is caught
and the handler executes raise e(message): calling the KeyError
instance raises a TypeError, so the documented message is lost. -/
def rag_embed (openaiKeyOk : Bool) (resp : JVal) : Except PyError JVal :=
  let attempt : Except PyError JVal :=
    if !openaiKeyOk then .error (.keyError "OPENAI_KEY")
    else do
      let d ← jGetKey resp "data"
      let d0 ← jGetIdx d 0
      jGetKey d0 "embedding"
  match attempt with
  | .error (.keyError _) => .error (.typeError typeErrorMsg)
  | r => r

/-- rag._ml_studio_model (backend.py lines 182-214).  The endpoint
environment variable is read outside the try block (line 186), so its
KeyError propagates as-is.  The key and deployment variables are read
inside the try block; their KeyError is caught, and the handler first
evaluates an f-string referencing the local response, which is unbound
at that point, so Python raises NameError (UnboundLocalError) before
e(...) is even called.  A well-formed call returns
response.get(output), which is silently None when the field is
missing: dict.get never raises KeyError, so the except block is
unreachable for a missing output field. -/
def ml_studio_model (endpointOk keyOk modelOk : Bool) (resp : JVal) :
    Except PyError (Option JVal) :=
  if !endpointOk then .error (.keyError "MODEL_ENDPOINT")
  else if !(keyOk && modelOk) then .error (.nameError "response")
  else dictGet resp "output"

/-- rag._ai_studio_model (backend.py lines 216-239).  OPENAI_KEY is
read inside the try block: its KeyError is caught with response still
unbound, so the handler f-string raises NameError.  After response is
bound, the chain response[choices][0][message].get(content) can raise
KeyError at the subscripts; that KeyError is caught and raise e(...)
turns it into a TypeError.  IndexError from [0] is not caught. -/
def ai_studio_model (openaiKeyOk : Bool) (resp : JVal) :
    Except PyError (Option JVal) :=
  if !openaiKeyOk then .error (.nameError "response")
  else
    let attempt : Except PyError (Option JVal) := do
      let cs ← jGetKey resp "choices"
      let c0 ← jGetIdx cs 0
      let msg ← jGetKey c0 "message"
      dictGet msg "content"
    match attempt with
    | .error (.keyError _) => .error (.typeError typeErrorMsg)
    | r => r

/-- rag._containerized_model (backend.py lines 241-259).  The variable
response is never assigned in this function, so whenever the KeyError
from the subscript [response-field] is caught, the handler f-string
references an unbound name and raises NameError. -/
def containerized_model (resp : JVal) : Except PyError JVal :=
  match jGetKey resp "response" with
  | .error (.keyError _) => .error (.nameError "response")
  | r => r

/-- The branch rag._augment (backend.py lines 168-180) selects. -/
inductive Branch where
  | hosted
  | managedChat
  | selfHosted
  | invalid
  deriving DecidableEq, Repr

/-- The dispatch condition chain of rag._augment. -/
def augmentBranch (model : String) : Branch :=
  if model == "llama" || model == "mistral" then .hosted
  else if model == "gpt35_4k" || model == "gpt35_16k" || model == "gpt4_1106" then
    .managedChat
  else if model == "qwen" then .selfHosted
  else .invalid

/-- One row of the chunk table (columns title, url, chunks). -/
structure ChunkRow where
  title : String
  url : String
  chunks : String
  deriving DecidableEq, Repr

/-- One record of the sources field of the response envelope. -/
structure SourceRec where
  title : String
  similarity : ℚ
  url : String
  chunks : String
  deriving DecidableEq, Repr

/-- The external collaborators of rag.generate, passed in explicitly:
environment-variable availability, the two service payloads, the index
search result for the query (scores[0] and ids[0] of the FAISS call),
the chunk table, and the tokenizer capability count_tokens. -/
structure GenEnv where
  openaiKeyOk : Bool
  mlEndpointOk : Bool
  mlKeyOk : Bool
  mlModelOk : Bool
  embedResponse : JVal
  backendResponse : JVal
  searchScores : List ℚ
  searchIds : List ℕ
  chunkTable : List ChunkRow
  tok : String → ℕ

/-- rag._augment (backend.py lines 168-180): dispatch on self.model to
one of the three child functions, else raise the invalid-model
exception. -/
def rag_augment (cfg : Config) (env : GenEnv) : Except PyError (Option JVal) :=
  match augmentBranch cfg.model with
  | .hosted => ml_studio_model env.mlEndpointOk env.mlKeyOk env.mlModelOk env.backendResponse
  | .managedChat => ai_studio_model env.openaiKeyOk env.backendResponse
  | .selfHosted => (containerized_model env.backendResponse).map some
  | .invalid => .error .invalidModelError

/-- The llm cost value of backend.py line 86: either the string
sentinel N/A or a float. -/
inductive CostVal where
  | na
  | num (q : ℚ)
  deriving DecidableEq, Repr

/-- LLM_RATES (backend.py lines 12-16): cost per 1000 tokens as
(input rate, output rate). -/
def LLM_RATES : List (String × (ℚ × ℚ)) :=
  [("gpt35_4k", (21 / 10000, 3 / 1000)),
   ("gpt35_16k", (7 / 10000, 21 / 10000)),
   ("gpt4_1106", (41 / 1000, 82 / 1000))]

/-- EMBED_COST (backend.py line 18): cost per 1000 tokens. -/
def EMBED_COST : ℚ := 136 / 1000000

/-- backend.py line 86: N/A when LLM_RATES has no entry for the model,
else the dot product of the rate pair with the token counts over 1000. -/
def llmCostOf (model : String) (tokensIn tokensOut : ℕ) : CostVal :=
  match LLM_RATES.lookup model with
  | none => .na
  | some r => .num (r.1 * (tokensIn : ℚ) / 1000 + r.2 * (tokensOut : ℚ) / 1000)

/-- The addition embed_cost + llm_cost of backend.py line 115: adding a
float to the string sentinel is a Python TypeError. -/
def pyAddCost (a : ℚ) (b : CostVal) : Except PyError ℚ :=
  match b with
  | .num q => .ok (a + q)
  | .na => .error (.typeError addTypeErrorMsg)

/-- Python str() as used when self.body is interpolated into the
f-string prompt (the claims only exercise string bodies). -/
def pyStr : PyVal → String
  | .str s => s
  | .pyBool b => if b then "True" else "False"
  | .num q => toString q
  | .pyNone => "None"

/-- The Python slice xs[0:n] with the sign semantics of a slice stop:
nonnegative n keeps the first n elements, negative n drops the last
-n elements. -/
def pySlice0 (xs : List String) (n : ℤ) : List String :=
  if 0 ≤ n then xs.take n.toNat
  else xs.take (xs.length - (-n).toNat)

/-- backend.py line 75: join the first chunk_limit retrieved chunk
texts with the separator. -/
def buildContext (chunkTexts : List String) (limit : ℤ) : String :=
  String.intercalate " | " (pySlice0 chunkTexts limit)

/-- backend.py line 76: the augmented prompt f-string. -/
def buildPrompt (body : String) (useRag : Bool) (context : String) : String :=
  "Answer: " ++ body ++ " " ++ (if useRag then "using: " ++ context else "")

/-- count_tokens on the backend response (backend.py line 85): the
tokenizer requires text, so a non-string response value (including the
silent None of a missing output field) is a TypeError. -/
def tokenArg : Option JVal → Except PyError String
  | some (.jstr s) => .ok s
  | some _ => .error (.typeError "token counting expects text")
  | none => .error (.typeError "token counting expects text, got None")

/-- self.__dict__ at backend.py line 93: the eleven attributes set by
rag.__init__ in insertion order, followed by self.prompt which
rag.generate sets at line 76 before serializing the envelope. -/
def configDict (cfg : Config) (prompt : String) : List (String × PyVal) :=
  [("body", cfg.body.getD PyVal.pyNone),
   ("model", PyVal.str cfg.model),
   ("use_rag", PyVal.pyBool cfg.use_rag),
   ("temperature", PyVal.num cfg.temperature),
   ("top_p", PyVal.num cfg.top_p),
   ("do_sample", PyVal.pyBool cfg.do_sample),
   ("frequency_penalty", PyVal.num cfg.frequency_penalty),
   ("presence_penalty", PyVal.num cfg.presence_penalty),
   ("max_new_tokens", PyVal.num (cfg.max_new_tokens : ℚ)),
   ("chunk_limit", PyVal.num (cfg.chunk_limit : ℚ)),
   ("k", PyVal.num (cfg.k : ℚ)),
   ("prompt", PyVal.str prompt)]

/-- The JSON response envelope of backend.py lines 88-122 (the id and
the runtime log, which are wall-clock I/O, are omitted). -/
structure Envelope where
  response : Option JVal
  sources : List SourceRec
  parameters : List (String × PyVal)
  embedTokensIn : ℕ
  llmTokensIn : ℕ
  llmTokensOut : ℕ
  costEmbed : ℚ
  costLLM : CostVal
  costTotal : ℚ

/-- The two response shapes rag.generate can return. -/
inductive HttpResp where
  | jsonResp (e : Envelope)
  | textResp (msg : String) (statusCode : ℕ)

/-- The fixed instructional message of backend.py line 125. -/
def greetingText : String :=
  "This HTTP triggered function executed successfully. Pass a body in the query string or in the request body for a personalized response."

/-- rag.generate (backend.py lines 62-127). -/
def rag_generate (cfg : Config) (env : GenEnv) : Except PyError HttpResp :=
  if isFalsy cfg.body then .ok (.textResp greetingText 200)
  else do
    let _embedding ← rag_embed env.openaiKeyOk env.embedResponse
    let scores := env.searchScores
    let ids := env.searchIds
    let rows := ids.filterMap (fun i => env.chunkTable.get? i)
    let context := buildContext (rows.map ChunkRow.chunks) cfg.chunk_limit
    let bodyText := pyStr (cfg.body.getD PyVal.pyNone)
    let prompt := buildPrompt bodyText cfg.use_rag context
    let response ← rag_augment cfg env
    let embedTokens := env.tok bodyText
    let embedCost := (embedTokens : ℚ) / 1000 * EMBED_COST
    let llmTokensIn := env.tok prompt
    let respText ← tokenArg response
    let llmTokensOut := env.tok respText
    let llmCost := llmCostOf cfg.model llmTokensIn llmTokensOut
    let costTotal ← pyAddCost embedCost llmCost
    pure (.jsonResp {
      response := response,
      sources := List.zipWith (fun r s => SourceRec.mk r.title s r.url r.chunks) rows scores,
      parameters := configDict cfg prompt,
      embedTokensIn := embedTokens,
      llmTokensIn := llmTokensIn,
      llmTokensOut := llmTokensOut,
      costEmbed := embedCost,
      costLLM := llmCost,
      costTotal := costTotal })

/-- Which pipeline stages rag.generate reaches: the embed stage runs
whenever a body is present; the index search and the backend dispatch
run only after the embed call returned. -/
structure Trace where
  embedStage : Bool
  searchStage : Bool
  augmentStage : Bool
  deriving DecidableEq, Repr

/-- Stage observer for rag.generate, following its control flow. -/
def rag_trace (cfg : Config) (env : GenEnv) : Trace :=
  if isFalsy cfg.body then Trace.mk false false false
  else
    match rag_embed env.openaiKeyOk env.embedResponse with
    | .error _ => Trace.mk true false false
    | .ok _ => Trace.mk true true true

/-- A resolved configuration with all defaults and model llama. -/
def cfgLlama : Config :=
  { body := some (PyVal.str "hi"), model := "llama", use_rag := true,
    temperature := 9 / 10, top_p := 9 / 10, do_sample := true,
    frequency_penalty := 0, presence_penalty := 0, max_new_tokens := 200,
    chunk_limit := 150, k := 3 }

/-- The same configuration with model gpt35_4k. -/
def cfgGpt : Config := { cfgLlama with model := "gpt35_4k" }

/-- The same configuration with the spec-claimed alias gpt_16k. -/
def cfgG16 : Config := { cfgLlama with model := "gpt_16k" }

/-- The same configuration with a model outside every dispatch group. -/
def cfgFoo : Config := { cfgLlama with model := "some_other_model" }

/-- A well-formed embedding-service payload. -/
def embedOkResp : JVal :=
  JVal.jobj [("data", JVal.jarr [JVal.jobj [("embedding", JVal.jarr [JVal.jnum 0])]])]

/-- A pipeline environment for a hosted-inference (llama) run in which
every external call answers well-formed data. -/
def envLlama : GenEnv :=
  { openaiKeyOk := true, mlEndpointOk := true, mlKeyOk := true, mlModelOk := true,
    embedResponse := embedOkResp,
    backendResponse := JVal.jobj [("output", JVal.jstr "ans")],
    searchScores := [1 / 2], searchIds := [0],
    chunkTable := [ChunkRow.mk "t" "u" "c"],
    tok := String.length }

/-- The same environment with a managed-chat backend payload. -/
def envGpt : GenEnv :=
  { envLlama with
    backendResponse :=
      JVal.jobj [("choices",
        JVal.jarr [JVal.jobj [("message", JVal.jobj [("content", JVal.jstr "ans")])]])] }

/-- The same environment, with the embedding service answering an empty
JSON object. -/
def envEmbedFail : GenEnv := { envGpt with embedResponse := JVal.jobj [] }

/-- The envelope of the successful gpt35_4k run (with a harmless
fallback value, never reached, for the non-envelope shapes). -/
def c9Envelope : Envelope :=
  match rag_generate cfgGpt envGpt with
  | .ok (.jsonResp e) => e
  | _ => Envelope.mk none [] [] 0 0 0 0 CostVal.na 0

/-- The field names of the parameters object of that envelope. -/
def c9ParamKeys : List String := c9Envelope.parameters.map Prod.fst

/-- The request of the C5 counterexample: body in the query string,
use_rag set to the lowercase string true, do_sample set to False. -/
def c5Req : HttpRequest :=
  HttpRequest.mk
    [("body", PyVal.str "hi"), ("use_rag", PyVal.str "true"),
     ("do_sample", PyVal.str "False")] none

theorem exc_bind_ok {ε α β : Type} (a : α) (f : α → Except ε β) :
    (Except.ok a >>= f) = f a := rfl

theorem exc_bind_err {ε α β : Type} (e : ε) (f : α → Except ε β) :
    ((Except.error e : Except ε α) >>= f) = Except.error e := rfl

theorem exc_pure {ε α : Type} (a : α) : (pure a : Except ε α) = Except.ok a := rfl

/-- C1 (amended): for a modelId with an entry in LLM_RATES the total
cost is embedCost plus the dot product of the rates with the token
counts over 1000; for a modelId without an entry llmCost is the
non-numeric sentinel and the totalCost addition raises a TypeError, so
no numeric totalCost is produced. -/
theorem C1_llm_cost_total (m : String) (ec : ℚ) (tin tout : ℕ) :
    pyAddCost ec (llmCostOf m tin tout) =
      match LLM_RATES.lookup m with
      | some r => Except.ok (ec + (r.1 * (tin : ℚ) / 1000 + r.2 * (tout : ℚ) / 1000))
      | none => Except.error (PyError.typeError addTypeErrorMsg) := by
  cases h : LLM_RATES.lookup m <;> simp [llmCostOf, pyAddCost, h]

/-- C1 (counterexample): a llama request in which every external call
answers well-formed data still fails with a TypeError at the cost
total, instead of producing a numeric totalCost equal to embedCost. -/
theorem C1_na_cost_crash :
    rag_generate cfgLlama envLlama = Except.error (PyError.typeError addTypeErrorMsg) := by
  rfl

/-- C2 (code bug): a request whose prompt arrives only in the JSON
body crashes with AttributeError, because rag.__init__ line 45 rebinds
req to the parsed dict and line 52 then reads req.params on it; a
JSON-parse failure, by contrast, is swallowed and yields the default
configuration with no body. -/
theorem C2_json_body_attribute_crash :
    rag_init (HttpRequest.mk [] (some [("body", PyVal.str "hello")])) "gpt35_4k"
        = Except.error (PyError.attributeError "params") ∧
    rag_init (HttpRequest.mk [] none) "gpt35_4k"
        = Except.ok (Config.mk none "gpt35_4k" true (9 / 10) (9 / 10) true 0 0 200 150 3) :=
  ⟨rfl, rfl⟩

/-- C3 (counterexample): modelId gpt_16k dispatches to the
invalid-model branch, not to the managed-chat branch. -/
theorem C3_gpt16k_invalid :
    rag_augment cfgG16 envGpt = Except.error PyError.invalidModelError := rfl

/-- C3 (amended): gpt_16k is outside every dispatch group of
rag._augment and lands on the invalid branch; only gpt35_4k, gpt35_16k
and gpt4_1106 route to the managed-chat branch. -/
theorem C3_gpt16k_dispatch :
    augmentBranch "gpt_16k" = Branch.invalid ∧
    augmentBranch "gpt35_16k" = Branch.managedChat ∧
    augmentBranch "gpt35_4k" = Branch.managedChat ∧
    augmentBranch "gpt4_1106" = Branch.managedChat :=
  ⟨rfl, rfl, rfl, rfl⟩

/-- C4 (code bug, evaluated at the failing input): with every
environment variable present, a hosted-inference response without the
output field makes rag._ml_studio_model return None silently, because
dict.get never raises the KeyError its except block waits for. -/
theorem C4_missing_output_silent_none :
    ml_studio_model true true true (JVal.jobj []) = Except.ok none := rfl

/-- C10 (counterexample): a KeyError caught inside rag._ml_studio_model
(here: a missing key environment variable, the only KeyError its try
block can raise) produces a NameError from the unbound local response,
not the TypeError the claim states. -/
theorem C10_ml_studio_not_typeerror :
    ml_studio_model true false true (JVal.jobj [("output", JVal.jstr "x")])
      = Except.error (PyError.nameError "response") ∧
    PyError.nameError "response" ≠ PyError.typeError typeErrorMsg :=
  ⟨rfl, by decide⟩

/-- C10 (amended): every caught KeyError handler executes raise e(...),
so the documented message never reaches the caller; the visible
exception is a TypeError in rag._embed and in rag._ai_studio_model when
the KeyError arises after response is bound (missing choices), but a
NameError from the unbound local response in rag._ml_studio_model, in
rag._containerized_model and in rag._ai_studio_model when the KeyError
comes from the environment lookup. -/
theorem C10_raise_pattern_amended :
    (∀ r : JVal, rag_embed false r = Except.error (PyError.typeError typeErrorMsg)) ∧
    rag_embed true (JVal.jobj []) = Except.error (PyError.typeError typeErrorMsg) ∧
    (∀ r : JVal, ml_studio_model true false true r
      = Except.error (PyError.nameError "response")) ∧
    (∀ r : JVal, ml_studio_model true true false r
      = Except.error (PyError.nameError "response")) ∧
    ai_studio_model false (JVal.jobj []) = Except.error (PyError.nameError "response") ∧
    ai_studio_model true (JVal.jobj []) = Except.error (PyError.typeError typeErrorMsg) ∧
    containerized_model (JVal.jobj []) = Except.error (PyError.nameError "response") :=
  ⟨fun _ => rfl, rfl, fun _ => rfl, fun _ => rfl, rfl, rfl, rfl⟩

/-- C5 (counterexample): supplying use_rag as the lowercase string true
resolves it to false, although that value is not the string False; an
explicit False is therefore not the only way to obtain false. -/
theorem C5_lowercase_true_is_false :
    rag_init c5Req "gpt35_4k"
      = Except.ok (Config.mk (some (PyVal.str "hi")) "gpt35_4k" false (9 / 10) (9 / 10)
          false 0 0 200 150 3) ∧
    PyVal.str "true" ≠ PyVal.str "False" :=
  ⟨rfl, by decide⟩

theorem memTruthy_some_iff (v : PyVal) :
    memTruthy (some v) = true ↔
      (v = PyVal.str "True" ∨ v = PyVal.pyBool true ∨ v = PyVal.num 1 ∨
        v = PyVal.pyNone) := by
  cases v <;> simp [memTruthy, pyEq]

/-- C5 (amended): a boolean-like field resolves to true exactly when
the supplied value is absent, the string True, the native boolean True,
the number 1 (which Python == equates with True) or None; every other
supplied value resolves to false, so an explicit False string is not
the only way to obtain false. -/
theorem C5_truthy_characterization (v : PyVal) :
    ∃ cfg : Config,
      rag_init (HttpRequest.mk
          [("body", PyVal.str "hi"), ("use_rag", v), ("do_sample", v)] none)
        "gpt35_4k" = Except.ok cfg ∧
      (cfg.use_rag = true ↔
        (v = PyVal.str "True" ∨ v = PyVal.pyBool true ∨ v = PyVal.num 1 ∨
          v = PyVal.pyNone)) ∧
      cfg.do_sample = cfg.use_rag := by
  refine ⟨{ body := some (PyVal.str "hi"), model := "gpt35_4k",
            use_rag := memTruthy (some v), temperature := 9 / 10, top_p := 9 / 10,
            do_sample := memTruthy (some v), frequency_penalty := 0,
            presence_penalty := 0, max_new_tokens := 200, chunk_limit := 150,
            k := 3 }, rfl, memTruthy_some_iff v, rfl⟩

/-- C6: the dispatch of rag._augment is total over the declared model
groups: llama and mistral go to the hosted branch, the three gpt ids to
the managed-chat branch, qwen to the self-hosted branch, and any other
modelId raises the invalid-model exception with no unhandled
fallthrough. -/
theorem C6_dispatch_total (m : String) (cfg : Config) (env : GenEnv)
    (hm : cfg.model = m) :
    ((m = "llama" ∨ m = "mistral") → augmentBranch m = Branch.hosted) ∧
    ((m = "gpt35_4k" ∨ m = "gpt35_16k" ∨ m = "gpt4_1106") →
      augmentBranch m = Branch.managedChat) ∧
    (m = "qwen" → augmentBranch m = Branch.selfHosted) ∧
    (m ∉ ["llama", "mistral", "gpt35_4k", "gpt35_16k", "gpt4_1106", "qwen"] →
      augmentBranch m = Branch.invalid ∧
      rag_augment cfg env = Except.error PyError.invalidModelError) := by
  refine ⟨?_, ?_, ?_, ?_⟩
  · rintro (rfl | rfl) <;> rfl
  · rintro (rfl | rfl | rfl) <;> rfl
  · rintro rfl; rfl
  · intro hmem
    simp only [List.mem_cons, List.not_mem_nil, or_false, not_or] at hmem
    obtain ⟨h1, h2, h3, h4, h5, h6⟩ := hmem
    have hb : augmentBranch m = Branch.invalid := by
      simp [augmentBranch, h1, h2, h3, h4, h5, h6]
    exact ⟨hb, by simp [rag_augment, hm, hb]⟩

/-- C6 (witness): a modelId outside every group raises the
invalid-model exception. -/
theorem C6_dispatch_witness :
    rag_augment cfgFoo envGpt = Except.error PyError.invalidModelError :=
  ((C6_dispatch_total "some_other_model" cfgFoo envGpt rfl).2.2.2 (by decide)).2

/-- C7: when the embedding service answers an empty JSON object, the
pipeline aborts inside rag._embed (with the exception produced at the
raise-e line, standing for the spec EmbeddingServiceError) and neither
the index search nor any LLM backend dispatch runs; there is no retry
and no non-RAG fallback. -/
theorem C7_embed_failure_aborts (cfg : Config) (env : GenEnv)
    (hb : isFalsy cfg.body = false) (he : env.embedResponse = JVal.jobj []) :
    rag_generate cfg env = Except.error (PyError.typeError typeErrorMsg) ∧
    rag_trace cfg env = Trace.mk true false false := by
  have hembed : rag_embed env.openaiKeyOk env.embedResponse
      = Except.error (PyError.typeError typeErrorMsg) := by
    rw [he]; cases env.openaiKeyOk <;> rfl
  constructor
  · unfold rag_generate
    rw [hb, hembed]
    rfl
  · unfold rag_trace
    rw [hb, hembed]
    rfl

/-- C7 (witness): the abort at a concrete request and environment. -/
theorem C7_embed_failure_witness :
    rag_generate cfgLlama envEmbedFail = Except.error (PyError.typeError typeErrorMsg) ∧
    rag_trace cfgLlama envEmbedFail = Trace.mk true false false :=
  C7_embed_failure_aborts cfgLlama envEmbedFail rfl rfl

/-- C8: the context is the join, with separator, of at most chunkLimit
chunk texts (chunkLimit bounds the chunk count, not the character
length), and the prompt is the Answer prefix with the body, with the
using-context suffix appended exactly when useContext is true. -/
theorem C8_context_and_prompt (xs : List String) (limit : ℤ) (body ctx : String)
    (h : 0 ≤ limit) :
    pySlice0 xs limit = xs.take limit.toNat ∧
    (pySlice0 xs limit).length ≤ limit.toNat ∧
    buildContext xs limit = String.intercalate " | " (xs.take limit.toNat) ∧
    buildPrompt body true ctx = "Answer: " ++ body ++ " " ++ ("using: " ++ ctx) ∧
    buildPrompt body false ctx = "Answer: " ++ body ++ " " := by
  have h1 : pySlice0 xs limit = xs.take limit.toNat := by simp [pySlice0, h]
  refine ⟨h1, ?_, ?_, rfl, ?_⟩
  · rw [h1, List.length_take]; exact min_le_left _ _
  · simp [buildContext, h1]
  · simp [buildPrompt]

/-- C8 (witness): the prompt shape at concrete inputs. -/
theorem C8_context_witness : buildPrompt "q" false "c" = "Answer: " ++ "q" ++ " " :=
  (C8_context_and_prompt ["a", "b", "c"] 2 "q" "c" (by decide)).2.2.2.2

/-- C9 (counterexample): the parameters object of a successful envelope
carries the eleven resolved configuration fields plus a twelfth field
prompt, so it does not equal the resolved GenerationConfig with no
additional fields. -/
theorem C9_parameters_cex :
    c9ParamKeys = ["body", "model", "use_rag", "temperature", "top_p", "do_sample",
      "frequency_penalty", "presence_penalty", "max_new_tokens", "chunk_limit", "k",
      "prompt"] ∧
    c9ParamKeys ≠ ["body", "model", "use_rag", "temperature", "top_p", "do_sample",
      "frequency_penalty", "presence_penalty", "max_new_tokens", "chunk_limit", "k"] := by
  have h12 : c9ParamKeys = ["body", "model", "use_rag", "temperature", "top_p",
      "do_sample", "frequency_penalty", "presence_penalty", "max_new_tokens",
      "chunk_limit", "k", "prompt"] := rfl
  exact ⟨h12, by rw [h12]; decide⟩

/-- C9 (amended): every successful envelope echoes self.__dict__ as its
parameters field: the eleven resolved configuration fields verbatim and
in insertion order, followed by exactly one additional field, prompt,
holding the augmented prompt set by rag.generate line 76. -/
theorem C9_parameters_amended (cfg : Config) (env : GenEnv) (e : Envelope)
    (h : rag_generate cfg env = Except.ok (HttpResp.jsonResp e)) :
    ∃ p : String, e.parameters = configDict cfg p := by
  unfold rag_generate at h
  by_cases hb : isFalsy cfg.body = true
  · rw [if_pos hb] at h
    exact absurd h (by simp)
  · rw [if_neg hb] at h
    cases hE : rag_embed env.openaiKeyOk env.embedResponse with
    | error err => rw [hE, exc_bind_err] at h; exact absurd h (by simp)
    | ok emb =>
      rw [hE, exc_bind_ok] at h
      cases hA : rag_augment cfg env with
      | error err => rw [hA, exc_bind_err] at h; exact absurd h (by simp)
      | ok response =>
        rw [hA, exc_bind_ok] at h
        cases hT : tokenArg response with
        | error err => rw [hT, exc_bind_err] at h; exact absurd h (by simp)
        | ok respText =>
          rw [hT, exc_bind_ok] at h
          simp only [] at h
          cases hC : pyAddCost
              ((env.tok (pyStr (cfg.body.getD PyVal.pyNone)) : ℚ) / 1000 * EMBED_COST)
              (llmCostOf cfg.model
                (env.tok (buildPrompt (pyStr (cfg.body.getD PyVal.pyNone)) cfg.use_rag
                  (buildContext
                    (List.map ChunkRow.chunks
                      (List.filterMap (fun i => env.chunkTable.get? i) env.searchIds))
                    cfg.chunk_limit)))
                (env.tok respText)) with
          | error err => rw [hC, exc_bind_err] at h; exact absurd h (by simp)
          | ok total =>
            rw [hC, exc_bind_ok, exc_pure] at h
            simp only [Except.ok.injEq] at h
            refine ⟨buildPrompt (pyStr (cfg.body.getD PyVal.pyNone)) cfg.use_rag
              (buildContext
                (List.map ChunkRow.chunks
                  (List.filterMap (fun i => env.chunkTable.get? i) env.searchIds))
                cfg.chunk_limit), ?_⟩
            cases h
            rfl

/-- C9 (witness): the amended shape at the successful gpt35_4k run. -/
theorem C9_parameters_witness :
    ∃ p : String, c9Envelope.parameters = configDict cfgGpt p :=
  C9_parameters_amended cfgGpt envGpt c9Envelope rfl
